import Mathlib

/-!
Shallow embedding of the concurrent resource-aggregation engine of
src/gcp-read.py (GCP resource counter), and proofs about it.

Python dictionaries of counters are modelled as functions from String to Nat,
lists as Lean lists, and the shared mutable module state (totals, totals_log,
errors_log, lines 163-187) as an explicit record threaded through the probe
and dispatcher functions.  A probe body is a state transformer together with
an optional uncaught exception (Option String); the dispatchers of
get_gcp_resources and main sequence these transformers exactly the way the
Python control flow does at quiescence.
-/

namespace GcpRead

/-- A row recorded by progress_print (lines 212-218):
[resource_type, resource_count, project, region]. -/
structure ProbeResult where
  resource_type : String
  count : Nat
  project : String
  region : String
deriving DecidableEq, Repr

/-- An entry of errors_log as appended by error_print (lines 227-240). -/
structure ErrorRec where
  project : String
  origin : String
  message : String
deriving DecidableEq, Repr

/-- The shared mutable module state: the totals dict (lines 163-179),
the totals_log list (line 181) and the errors_log list (line 182). -/
structure GcpState where
  totals : String → Nat
  totals_log : List ProbeResult
  errors_log : List ErrorRec

/-- Initial state: every counter of the totals dict is 0, both logs empty. -/
def initState : GcpState :=
  { totals := fun _ => 0, totals_log := [], errors_log := [] }

/-- error_print (lines 227-240): append one record to errors_log. -/
def error_print (e : ErrorRec) (st : GcpState) : GcpState :=
  { st with errors_log := st.errors_log ++ [e] }

/-- progress_print (lines 212-218): append one row to totals_log. -/
def progress_print (row : ProbeResult) (st : GcpState) : GcpState :=
  { st with totals_log := st.totals_log ++ [row] }

/-- One guarded totals update, totals[key] += n, as performed inside a
with totals_lock block (e.g. lines 456-459). -/
def add_total (key : String) (n : Nat) (st : GcpState) : GcpState :=
  { st with totals := fun r => if r = key then st.totals r + n else st.totals r }

/-- The Aggregator record operation of one ProbeResult: the progress_print
log append paired with the totals update for the result's resource type
(spec section 4.5; e.g. lines 673-676 of get_gcp_buckets). -/
def recordResult (pr : ProbeResult) (st : GcpState) : GcpState :=
  add_total pr.resource_type pr.count (progress_print pr st)

/-- Recording a finite sequence of ProbeResults, in a given arrival order. -/
def aggregate (prs : List ProbeResult) (st : GcpState) : GcpState :=
  prs.foldl (fun s pr => recordResult pr s) st

/-- One page of a paginated remote listing: the items of the response and
whether the response carries a nextPageToken (the continuation cursor). -/
structure Page (α : Type) where
  items : List α
  nextPageToken : Bool
deriving DecidableEq, Repr

/-- The paginated walk loop shared by every probe
(while request is not None: response = request.execute(); collect items;
request = list_next(...) if nextPageToken in response else None;
e.g. get_gcp_enabled_services lines 284-292, get_gcp_buckets lines 662-669).
The input is the sequence of pages the server would return; the output is
the items collected together with the number of requests issued. -/
def walkPages {α : Type} : List (Page α) → List α × Nat
  | [] => ([], 0)
  | p :: rest =>
    if p.nextPageToken then
      let r := walkPages rest
      (p.items ++ r.1, r.2 + 1)
    else (p.items, 1)

/-- The same walk loop when a page fetch (request.execute()) may raise a
transport error: the first failing fetch aborts the walk and the exception
propagates to the probe body (there is no try around the execute calls of
the page loops, e.g. line 663 of get_gcp_buckets). -/
def walkPagesE {α : Type} : List (Except String (Page α)) → Except String (List α)
  | [] => Except.ok []
  | Except.error e :: _ => Except.error e
  | Except.ok p :: rest =>
    if p.nextPageToken then
      match walkPagesE rest with
      | Except.error e => Except.error e
      | Except.ok items => Except.ok (p.items ++ items)
    else Except.ok p.items

/-- get_gcp_buckets (lines 653-676).  buildOk models whether the guarded
setup step (client build and initial request construction, lines 656-658)
succeeds; on its failure the exception is caught, error_print records it
and the probe returns (lines 659-661).  The page loop itself (lines
662-669) has no try, so a failing page fetch propagates out of the probe;
otherwise the item count is capped at 10000 (line 671) and, if positive or
in verbose mode, logged and added to totals (lines 673-676). -/
def get_gcp_buckets_run (buildOk : Bool) (pages : List (Except String (Page Unit)))
    (project_id project_name : String) (verbose_mode : Bool) (st : GcpState) :
    GcpState × Option String :=
  if buildOk = false then
    (error_print ⟨project_id, "get_gcp_buckets", "client build failed"⟩ st, none)
  else
    match walkPagesE pages with
    | Except.error e => (st, some e)
    | Except.ok items =>
      let buckets_count := min items.length 10000
      if 0 < buckets_count ∨ verbose_mode = true then
        (add_total "Data Buckets" buckets_count
          (progress_print ⟨"Data Buckets", buckets_count, project_name, ""⟩ st), none)
      else (st, none)

/-- The debug/sequential branch of get_gcp_resources (lines 804-831): the
selected probe bodies are invoked one after the other with no surrounding
try, so the first probe that raises aborts the remaining probes and the
exception propagates to the caller of get_gcp_resources. -/
def runTasksDebug :
    List (GcpState → GcpState × Option String) → GcpState → GcpState × Option String
  | [], st => (st, none)
  | t :: ts, st =>
    match t st with
    | (st2, some e) => (st2, some e)
    | (st2, none) => runTasksDebug ts st2

/-- The parallel branch of get_gcp_resources (lines 832-864): every
submitted probe task runs to completion (the with-block joins the pool),
and a task whose body raised only increments the local exceptions counter
(lines 862-864); nothing is recorded for it.  The returned Nat is that
counter. -/
def runTasksParallel :
    List (GcpState → GcpState × Option String) → GcpState → GcpState × Nat
  | [], st => (st, 0)
  | t :: ts, st =>
    match t st with
    | (st2, some _) =>
      ((runTasksParallel ts st2).1, (runTasksParallel ts st2).2 + 1)
    | (st2, none) => runTasksParallel ts st2

/-- The debug/sequential branch of the main account loop (lines 993-997):
each account task is called directly, an exception aborts the loop, and
completed_count is never touched in this branch.  The Nat argument and
result are completed_count; Except.error is the propagating exception, its
payload the state and counter at the abort point. -/
def main_debug_loop :
    List (GcpState → GcpState × Option String) → GcpState → Nat →
      Except (GcpState × Nat) (GcpState × Nat)
  | [], st, completed_count => Except.ok (st, completed_count)
  | t :: ts, st, completed_count =>
    match t st with
    | (st2, some _) => Except.error (st2, completed_count)
    | (st2, none) => main_debug_loop ts st2 completed_count

/-- The parallel branch of the main account loop (lines 999-1025): for each
completed future, completed_count is incremented under progress_lock both
on success (line 1012) and on exception (line 1024); the exception path
additionally records the failure through error_print (line 1025). -/
def main_parallel_loop :
    List (GcpState → GcpState × Option String) → GcpState → Nat → GcpState × Nat
  | [], st, completed_count => (st, completed_count)
  | t :: ts, st, completed_count =>
    match t st with
    | (st2, some e) =>
      main_parallel_loop ts (error_print ⟨"", "main", e⟩ st2) (completed_count + 1)
    | (st2, none) => main_parallel_loop ts st2 (completed_count + 1)

/-- completed_count as left by the debug main loop, whether it finished or
aborted on an exception. -/
def loop_completed : Except (GcpState × Nat) (GcpState × Nat) → Nat
  | Except.ok r => r.2
  | Except.error r => r.2

/-- Outcome of the startup phase: either the process exits with an exit
status and a message, or it proceeds to dispatch. -/
inductive StartupResult where
  | exitWith (code : Nat) (msg : String)
  | proceed
deriving DecidableEq, Repr

/-- The argument range checks (lines 124-129): an out-of-range
--max-image-tags or --max-workers prints an error and calls sys.exit(1). -/
def validate_args (max_image_tags max_workers : Int) : StartupResult :=
  if max_image_tags < 1 ∨ max_image_tags > 1000 then
    StartupResult.exitWith 1 "ERROR: --max-image-tags out of range: [1 .. 1000]"
  else if max_workers < 1 ∨ max_workers > 1000 then
    StartupResult.exitWith 1 "ERROR: --max-workers out of range: [1 .. 1000]"
  else StartupResult.proceed

/-- The startup phase in program order: the argument checks run first
(lines 124-129); then, in main before any dispatch (lines 954-968),
get_excluded_folders_from_file (lines 262-272) runs when --exclude is set
and calls sys.exit() with no argument — exit status 0 — when
excluded-folders.txt is missing, and get_gcp_projects_from_file (lines
365-378) runs when --projects is set and calls sys.exit() with no
argument — exit status 0 — when projects.txt is missing. -/
def startup (max_image_tags max_workers : Int)
    (input_excluded_folders excluded_file_exists
     input_projects projects_file_exists : Bool) : StartupResult :=
  match validate_args max_image_tags max_workers with
  | StartupResult.exitWith c m => StartupResult.exitWith c m
  | StartupResult.proceed =>
    if input_excluded_folders = true ∧ excluded_file_exists = false then
      StartupResult.exitWith 0 "excluded-folders.txt does not exist. Exiting..."
    else if input_projects = true ∧ projects_file_exists = false then
      StartupResult.exitWith 0 "projects.txt does not exist. Exiting..."
    else StartupResult.proceed

/-- One probe invocation submitted by get_gcp_resources; the registry-image
probe is invoked once per region (lines 830-831 and 860-861). -/
inductive ProbeCall where
  | gceInstances
  | gkeClusters
  | cloudFunctions
  | cloudrunRevisions
  | buckets
  | cloudsqlInstances
  | spannerInstances
  | bigqueryDatasets
  | gcrImages (region : String)
deriving DecidableEq, Repr

/-- The enabled dict (lines 144-161). -/
structure EnabledFlags where
  virtualMachines : Bool
  containerHosts : Bool
  serverlessFunctions : Bool
  serverlessContainers : Bool
  dataBuckets : Bool
  paasDatabases : Bool
  dataWarehouses : Bool
  nonOsDisks : Bool
  registryContainerImages : Bool
  kubernetesSensors : Bool
  virtualMachineSensors : Bool
  serverlessContainerSensors : Bool
deriving DecidableEq, Repr

/-- The values of the enabled dict: every flag fixed to True except
Registry Container Images, which follows --images (line 156). -/
def enabledConfig (images_mode : Bool) : EnabledFlags :=
  ⟨true, true, true, true, true, true, true, true, images_mode, true, true, true⟩

/-- The probe invocations of the debug/sequential branch of
get_gcp_resources (lines 804-831), in program order.  Data Buckets is
gated on service storage.googleapis.com (line 818). -/
def selectProbesDebug (en : EnabledFlags) (service_list regions_list : List String) :
    List ProbeCall :=
  (if (en.virtualMachines || en.containerHosts)
      && service_list.contains "compute.googleapis.com"
   then [ProbeCall.gceInstances] else [])
  ++ (if (en.containerHosts || en.serverlessContainers)
        && service_list.contains "container.googleapis.com"
      then [ProbeCall.gkeClusters] else [])
  ++ (if en.serverlessFunctions && service_list.contains "cloudfunctions.googleapis.com"
      then [ProbeCall.cloudFunctions] else [])
  ++ (if en.serverlessContainers && service_list.contains "run.googleapis.com"
      then [ProbeCall.cloudrunRevisions] else [])
  ++ (if en.dataBuckets && service_list.contains "storage.googleapis.com"
      then [ProbeCall.buckets] else [])
  ++ (if en.paasDatabases && service_list.contains "sqladmin.googleapis.com"
      then [ProbeCall.cloudsqlInstances] else [])
  ++ (if en.paasDatabases && service_list.contains "spanner.googleapis.com"
      then [ProbeCall.spannerInstances] else [])
  ++ (if en.dataWarehouses && service_list.contains "bigquery.googleapis.com"
      then [ProbeCall.bigqueryDatasets] else [])
  ++ (if en.registryContainerImages
        && service_list.contains "artifactregistry.googleapis.com"
      then regions_list.map ProbeCall.gcrImages else [])

/-- The probe task submissions of the parallel branch of get_gcp_resources
(lines 832-861), in submission order.  Data Buckets is gated on service
storage-api.googleapis.com (line 848). -/
def selectProbesParallel (en : EnabledFlags) (service_list regions_list : List String) :
    List ProbeCall :=
  (if (en.virtualMachines || en.containerHosts)
      && service_list.contains "compute.googleapis.com"
   then [ProbeCall.gceInstances] else [])
  ++ (if (en.containerHosts || en.serverlessContainers)
        && service_list.contains "container.googleapis.com"
      then [ProbeCall.gkeClusters] else [])
  ++ (if en.serverlessFunctions && service_list.contains "cloudfunctions.googleapis.com"
      then [ProbeCall.cloudFunctions] else [])
  ++ (if en.serverlessContainers && service_list.contains "run.googleapis.com"
      then [ProbeCall.cloudrunRevisions] else [])
  ++ (if en.dataBuckets && service_list.contains "storage-api.googleapis.com"
      then [ProbeCall.buckets] else [])
  ++ (if en.paasDatabases && service_list.contains "sqladmin.googleapis.com"
      then [ProbeCall.cloudsqlInstances] else [])
  ++ (if en.paasDatabases && service_list.contains "spanner.googleapis.com"
      then [ProbeCall.spannerInstances] else [])
  ++ (if en.dataWarehouses && service_list.contains "bigquery.googleapis.com"
      then [ProbeCall.bigqueryDatasets] else [])
  ++ (if en.registryContainerImages
        && service_list.contains "artifactregistry.googleapis.com"
      then regions_list.map ProbeCall.gcrImages else [])

/-- The progress snapshot computed per completed account future
(lines 1013-1016), modelled over exact rationals:
(rate, remaining, percentage). -/
def progress_snapshot (completed_count total_count : Nat) (elapsed : ℚ) : ℚ × ℚ × ℚ :=
  let rate : ℚ := if 0 < elapsed then (completed_count : ℚ) / elapsed else 0
  let remaining : ℚ :=
    if 0 < rate then ((total_count : ℚ) - (completed_count : ℚ)) / rate else 0
  let percentage : ℚ := ((completed_count : ℚ) / (total_count : ℚ)) * 100
  (rate, remaining, percentage)

/-- A docker image entry of an Artifact Registry listing; tags is present
exactly when the response carries a tags field. -/
structure DockerImage where
  tags : Option (List String)
deriving DecidableEq, Repr

/-- A repository entry of an Artifact Registry listing, with the images its
dockerImages listing returns. -/
structure GarRepository where
  format : String
  dockerImages : List DockerImage
deriving DecidableEq, Repr

/-- The contribution of one image inside the dockerImages loop of
get_gcp_gcr_images (lines 623-628): min(max_image_tags, len(tags)) when the
image has a tags field, else 1. -/
def docker_image_count (max_image_tags : Nat) (image : DockerImage) : Nat :=
  match image.tags with
  | some ts => min max_image_tags ts.length
  | none => 1

/-- The accumulated count of one repository before the cap
(container_registry_images_in_repository, lines 614-636). -/
def repository_images_count (max_image_tags : Nat) (images : List DockerImage) : Nat :=
  images.foldl (fun acc image => acc + docker_image_count max_image_tags image) 0

/-- The counting core of get_gcp_gcr_images (lines 601-638): repositories
with format DOCKER are collected (lines 603-608), then each repository
accumulates its image contributions, is capped at 10000 (line 637) and
added to the probe total (line 638). -/
def get_gcp_gcr_images_count (max_image_tags : Nat)
    (repositories : List GarRepository) : Nat :=
  (repositories.filter (fun repo => repo.format == "DOCKER")).foldl
    (fun acc repo =>
      acc + min (repository_images_count max_image_tags repo.dockerImages) 10000) 0

/-- tag_in_tags (lines 248-252): False on an empty tags dict, otherwise
tags.get(tag_key) == tag_value. -/
def tag_in_tags (tag_key tag_value : String) (tags : List (String × String)) : Bool :=
  if tags.isEmpty then false
  else tags.lookup tag_key == some tag_value

/-- label_in_labels (lines 255-259): False on an empty labels collection,
otherwise membership. -/
def label_in_labels (label : String) (labels : List String) : Bool :=
  if labels.isEmpty then false
  else labels.contains label

/-- One disk of a compute instance; winImage abstracts the remote
get_disk_image_details lookup (lines 468-482): whether win occurs in the
image description or family (line 443). -/
structure VmDisk where
  boot : Bool
  winImage : Bool
deriving DecidableEq, Repr

/-- One compute instance of an aggregatedList response, flattened over
zones (lines 413-417). -/
structure VmInstance where
  tags : List (String × String)
  labels : List String
  disks : List VmDisk
deriving DecidableEq, Repr

/-- The Databricks skip conditions of the instance loop (lines 419-424). -/
def databricks_skip (inst : VmInstance) : Bool :=
  tag_in_tags "Vendor" "Databricks" inst.tags
    || label_in_labels "databricks" inst.labels

/-- The four counters of get_gce_instances_and_gke_instances
(lines 400-403). -/
structure GceCounts where
  instances_count : Nat
  gke_instances_count : Nat
  non_os_disks_count : Nat
  linux_instances_count : Nat
deriving DecidableEq, Repr

/-- The disk sub-loop of the instance loop (lines 434-446), reached only
for non-GKE instances: a boot disk with a non-Windows image counts as a
Linux instance, a non-boot disk as a Non-OS disk. -/
def count_disk (c : GceCounts) (disk : VmDisk) : GceCounts :=
  if disk.boot then
    if disk.winImage then c
    else { c with linux_instances_count := c.linux_instances_count + 1 }
  else { c with non_os_disks_count := c.non_os_disks_count + 1 }

/-- The body of the instance loop (lines 417-446): skip Databricks
instances; count every other instance; an instance labeled goog-gke-node
additionally counts as a GKE instance and is not a compute instance, so
its disks are not scanned. -/
def count_instance (c : GceCounts) (inst : VmInstance) : GceCounts :=
  if databricks_skip inst then c
  else if inst.labels.contains "goog-gke-node" then
    { c with instances_count := c.instances_count + 1,
             gke_instances_count := c.gke_instances_count + 1 }
  else
    inst.disks.foldl count_disk
      { c with instances_count := c.instances_count + 1 }

/-- The counters after draining the whole aggregatedList listing. -/
def get_gce_counts (instances : List VmInstance) : GceCounts :=
  instances.foldl count_instance ⟨0, 0, 0, 0⟩

/-- The reporting tail of get_gce_instances_and_gke_instances
(lines 454-465): when the compute count is positive (or in verbose mode)
one log row is written and Virtual Machines, Non-OS Disks and Virtual
Machine Sensors are updated; when the GKE count is positive (or in verbose
mode) one log row is written and Container Hosts and Kubernetes Sensors
are both updated by the GKE count. -/
def get_gce_instances_effect (instances : List VmInstance) (project_name : String)
    (verbose_mode : Bool) (st : GcpState) : GcpState :=
  let c := get_gce_counts instances
  let st1 :=
    if 0 < c.instances_count ∨ verbose_mode = true then
      add_total "Virtual Machine Sensors" c.linux_instances_count
        (add_total "Non-OS Disks" c.non_os_disks_count
          (add_total "Virtual Machines" c.instances_count
            (progress_print
              ⟨"Virtual Machines [Compute]", c.instances_count, project_name, ""⟩ st)))
    else st
  if 0 < c.gke_instances_count ∨ verbose_mode = true then
    add_total "Kubernetes Sensors" c.gke_instances_count
      (add_total "Container Hosts" c.gke_instances_count
        (progress_print
          ⟨"Container Hosts [GKE]", c.gke_instances_count, project_name, ""⟩ st1))
  else st1

theorem recordResult_totals (pr : ProbeResult) (st : GcpState) (r : String) :
    (recordResult pr st).totals r
      = if r = pr.resource_type then st.totals r + pr.count else st.totals r := rfl

theorem aggregate_totals (prs : List ProbeResult) (st : GcpState) (r : String) :
    (aggregate prs st).totals r
      = st.totals r
        + ((prs.filter (fun pr => pr.resource_type = r)).map ProbeResult.count).sum := by
  induction prs generalizing st with
  | nil => simp [aggregate]
  | cons pr rest ih =>
    have hstep : aggregate (pr :: rest) st = aggregate rest (recordResult pr st) := rfl
    rw [hstep, ih]
    by_cases h : pr.resource_type = r
    · simp [recordResult_totals, h, List.filter_cons, Nat.add_assoc]
    · have h2 : ¬ r = pr.resource_type := fun hr => h hr.symm
      simp [recordResult_totals, h, h2, List.filter_cons]

/-- C1: For every finite multiset of ProbeResults recorded through the
Aggregator (progress_print plus the paired totals update), after
quiescence Totals[r] equals the exact sum of count over all recorded
ProbeResults whose resource_type is r, and this final value is
independent of the arrival order of the results. -/
theorem C1_aggregator_totals (prs prs2 : List ProbeResult) (r : String)
    (hperm : prs.Perm prs2) :
    (aggregate prs initState).totals r
        = ((prs.filter (fun pr => pr.resource_type = r)).map ProbeResult.count).sum
      ∧ (aggregate prs initState).totals r = (aggregate prs2 initState).totals r := by
  constructor
  · rw [aggregate_totals]
    simp [initState]
  · rw [aggregate_totals, aggregate_totals]
    have hf := hperm.filter (fun pr => decide (pr.resource_type = r))
    have hs := (hf.map ProbeResult.count).sum_eq
    simpa [initState] using hs

theorem C1_aggregator_totals_witness :
    ([⟨"Virtual Machines", 2, "p1", ""⟩, ⟨"Data Buckets", 3, "p1", ""⟩,
       ⟨"Virtual Machines", 5, "p2", ""⟩] : List ProbeResult).Perm
      [⟨"Virtual Machines", 5, "p2", ""⟩, ⟨"Data Buckets", 3, "p1", ""⟩,
       ⟨"Virtual Machines", 2, "p1", ""⟩]
    ∧ ((aggregate [⟨"Virtual Machines", 2, "p1", ""⟩, ⟨"Data Buckets", 3, "p1", ""⟩,
          ⟨"Virtual Machines", 5, "p2", ""⟩] initState).totals "Virtual Machines"
          = ((([⟨"Virtual Machines", 2, "p1", ""⟩, ⟨"Data Buckets", 3, "p1", ""⟩,
              ⟨"Virtual Machines", 5, "p2", ""⟩] : List ProbeResult).filter
                (fun pr => pr.resource_type = "Virtual Machines")).map ProbeResult.count).sum
        ∧ (aggregate [⟨"Virtual Machines", 2, "p1", ""⟩, ⟨"Data Buckets", 3, "p1", ""⟩,
            ⟨"Virtual Machines", 5, "p2", ""⟩] initState).totals "Virtual Machines"
          = (aggregate [⟨"Virtual Machines", 5, "p2", ""⟩, ⟨"Data Buckets", 3, "p1", ""⟩,
              ⟨"Virtual Machines", 2, "p1", ""⟩] initState).totals "Virtual Machines") :=
  ⟨by decide,
   C1_aggregator_totals _ _ "Virtual Machines" (by decide)⟩

/-- C6: For every paginated listing whose pages all carry a continuation
token up to a first token-less page, the walk loop issues one request per
page up to and including that page, collects exactly the items of those
pages, and stops there (pages behind the token-less page are never
requested).  In particular a 3-page listing of item counts [2, 2, 1] with
tokens only on the first two pages yields exactly 5 items and issues
exactly 3 requests. -/
theorem C6_paginated_walker {α : Type} (front : List (Page α)) (last : Page α)
    (rest : List (Page α))
    (hfront : ∀ p ∈ front, p.nextPageToken = true)
    (hlast : last.nextPageToken = false) :
    walkPages (front ++ last :: rest)
      = ((front.map Page.items).flatten ++ last.items, front.length + 1) := by
  induction front with
  | nil => simp [walkPages, hlast]
  | cons p ps ih =>
    have hp : p.nextPageToken = true := hfront p (List.mem_cons_self p ps)
    have hps : ∀ q ∈ ps, q.nextPageToken = true :=
      fun q hq => hfront q (List.mem_cons_of_mem p hq)
    simp [walkPages, hp, ih hps, List.append_assoc]

theorem C6_paginated_walker_witness :
    (∀ p ∈ ([⟨[0, 1], true⟩, ⟨[2, 3], true⟩] : List (Page Nat)), p.nextPageToken = true)
    ∧ (⟨[4], false⟩ : Page Nat).nextPageToken = false
    ∧ walkPages (([⟨[0, 1], true⟩, ⟨[2, 3], true⟩] : List (Page Nat))
          ++ (⟨[4], false⟩ : Page Nat) :: [])
        = ((([⟨[0, 1], true⟩, ⟨[2, 3], true⟩] : List (Page Nat)).map Page.items).flatten
            ++ [4], [(⟨[0, 1], true⟩ : Page Nat), ⟨[2, 3], true⟩].length + 1)
    ∧ ((([⟨[0, 1], true⟩, ⟨[2, 3], true⟩] : List (Page Nat)).map Page.items).flatten
        ++ [4]).length = 5
    ∧ [(⟨[0, 1], true⟩ : Page Nat), ⟨[2, 3], true⟩].length + 1 = 3 :=
  ⟨by decide, by decide,
   C6_paginated_walker [⟨[0, 1], true⟩, ⟨[2, 3], true⟩] ⟨[4], false⟩ []
     (by decide) (by decide),
   by decide, by decide⟩

theorem get_gcp_buckets_run_fail (pages : List (Except String (Page Unit)))
    (e : String) (project_id project_name : String) (verbose_mode : Bool)
    (st : GcpState) (hfail : walkPagesE pages = Except.error e) :
    get_gcp_buckets_run true pages project_id project_name verbose_mode st
      = (st, some e) := by
  simp [get_gcp_buckets_run, hfail]

/-- C2 counterexample: in debug/sequential mode, a first probe whose
failure happens in its guarded setup step (the client build raising) is
caught inside the probe: an ErrorRecord is appended, the probe returns
normally, the second probe IS still invoked (its log row appears), and
get_gcp_resources does not raise.  This refutes the claim that every
failing first probe prevents subsequent probes and makes the dispatch
raise. -/
theorem C2_debug_failfast_counterexample :
    (runTasksDebug [get_gcp_buckets_run false [] "p1" "Project One" false,
        fun st => (recordResult ⟨"PaaS Databases", 3, "Project One", ""⟩ st, none)]
      initState).2 = none
    ∧ (runTasksDebug [get_gcp_buckets_run false [] "p1" "Project One" false,
        fun st => (recordResult ⟨"PaaS Databases", 3, "Project One", ""⟩ st, none)]
      initState).1.totals_log = [⟨"PaaS Databases", 3, "Project One", ""⟩]
    ∧ (runTasksDebug [get_gcp_buckets_run false [] "p1" "Project One" false,
        fun st => (recordResult ⟨"PaaS Databases", 3, "Project One", ""⟩ st, none)]
      initState).1.errors_log.length = 1 :=
  ⟨rfl, rfl, rfl⟩

/-- C2 (amended): in debug/sequential mode, for every account whose first
invoked probe raises an exception that escapes the probe body (for
example a transport error during a page fetch, which the probes do not
catch), no subsequent probe of that account is invoked and the per-account
dispatch raises the error to its caller; a probe whose failure occurs in
its guarded setup step, however, records the error and returns, and the
remaining probes still run. -/
theorem C2_debug_failfast (pages : List (Except String (Page Unit))) (e : String)
    (project_id project_name : String) (verbose_mode : Bool)
    (ts : List (GcpState → GcpState × Option String)) (st : GcpState)
    (hfail : walkPagesE pages = Except.error e) :
    runTasksDebug
        (get_gcp_buckets_run true pages project_id project_name verbose_mode :: ts) st
      = (st, some e) := by
  simp [runTasksDebug,
    get_gcp_buckets_run_fail pages e project_id project_name verbose_mode st hfail]

theorem C2_debug_failfast_witness :
    walkPagesE ([Except.error "transport error"] : List (Except String (Page Unit)))
      = Except.error "transport error"
    ∧ runTasksDebug
        (get_gcp_buckets_run true [Except.error "transport error"] "p1" "Project One" false
          :: [fun st => (recordResult ⟨"PaaS Databases", 3, "Project One", ""⟩ st, none)])
        initState
      = (initState, some "transport error") :=
  ⟨rfl, C2_debug_failfast _ _ _ _ _ _ _ rfl⟩

/-- C3 counterexample: a probe whose listing fails with a transport error
on the second page contributes zero to Totals, but NO ErrorRecord is
appended for it: the exception escapes the probe and the parallel
dispatcher only counts it (lines 862-864).  This refutes the claim that
exactly one ErrorRecord tagged with the account is appended. -/
theorem C3_transport_error_counterexample :
    (get_gcp_buckets_run true
        [Except.ok ⟨[(), ()], true⟩, Except.error "transport error"]
        "p1" "Project One" false initState).1.errors_log = []
    ∧ ¬ (get_gcp_buckets_run true
        [Except.ok ⟨[(), ()], true⟩, Except.error "transport error"]
        "p1" "Project One" false initState).1.errors_log.length = 1
    ∧ (get_gcp_buckets_run true
        [Except.ok ⟨[(), ()], true⟩, Except.error "transport error"]
        "p1" "Project One" false initState).1.totals "Data Buckets" = 0 :=
  ⟨rfl, by decide, rfl⟩

/-- C3 (amended): for every probe run in the default parallel mode whose
remote listing fails with a transport error on a later page, the probe
contributes zero to Totals and appends zero ErrorRecords (the exception is
swallowed by the probe dispatcher, which only tallies it in a local
exceptions counter that is never read), and the sibling probes of the same
account still run to completion. -/
theorem C3_transport_error (pages : List (Except String (Page Unit))) (e : String)
    (project_id project_name : String) (verbose_mode : Bool)
    (siblings : List (GcpState → GcpState × Option String)) (st : GcpState)
    (hfail : walkPagesE pages = Except.error e) :
    get_gcp_buckets_run true pages project_id project_name verbose_mode st = (st, some e)
    ∧ runTasksParallel
        (get_gcp_buckets_run true pages project_id project_name verbose_mode :: siblings) st
      = ((runTasksParallel siblings st).1, (runTasksParallel siblings st).2 + 1) := by
  have h1 := get_gcp_buckets_run_fail pages e project_id project_name verbose_mode st hfail
  exact ⟨h1, by simp [runTasksParallel, h1]⟩

theorem C3_transport_error_witness :
    walkPagesE ([Except.ok ⟨[(), ()], true⟩, Except.error "transport error"] :
        List (Except String (Page Unit)))
      = Except.error "transport error"
    ∧ (get_gcp_buckets_run true
          [Except.ok ⟨[(), ()], true⟩, Except.error "transport error"]
          "p1" "Project One" false initState = (initState, some "transport error")
       ∧ runTasksParallel
           (get_gcp_buckets_run true
               [Except.ok ⟨[(), ()], true⟩, Except.error "transport error"]
               "p1" "Project One" false
             :: [fun st => (recordResult ⟨"PaaS Databases", 3, "Project One", ""⟩ st, none)])
           initState
         = ((runTasksParallel
              [fun st => (recordResult ⟨"PaaS Databases", 3, "Project One", ""⟩ st, none)]
              initState).1,
            (runTasksParallel
              [fun st => (recordResult ⟨"PaaS Databases", 3, "Project One", ""⟩ st, none)]
              initState).2 + 1)) :=
  ⟨rfl, C3_transport_error _ _ _ _ _ _ _ rfl⟩

theorem main_parallel_loop_count
    (tasks : List (GcpState → GcpState × Option String)) (st : GcpState) (c : Nat) :
    (main_parallel_loop tasks st c).2 = c + tasks.length := by
  induction tasks generalizing st c with
  | nil => simp [main_parallel_loop]
  | cons t ts ih =>
    rcases h : t st with ⟨st2, r⟩
    cases r with
    | none =>
      rw [main_parallel_loop, h]
      rw [ih]
      simp [Nat.add_assoc, Nat.add_comm 1 ts.length]
    | some e =>
      rw [main_parallel_loop, h]
      rw [ih]
      simp [Nat.add_assoc, Nat.add_comm 1 ts.length]

theorem main_debug_loop_count
    (tasks : List (GcpState → GcpState × Option String)) (st : GcpState) (c : Nat) :
    loop_completed (main_debug_loop tasks st c) = c := by
  induction tasks generalizing st with
  | nil => simp [main_debug_loop, loop_completed]
  | cons t ts ih =>
    rcases h : t st with ⟨st2, r⟩
    cases r with
    | none => rw [main_debug_loop, h]; exact ih st2
    | some e => rw [main_debug_loop, h]; rfl

/-- C8 counterexample: in debug/sequential mode the main loop never touches
completed_count: after one account task completes successfully,
completed_count is still 0, not 1.  This refutes the claim that in every
run mode each account task increments completed_count exactly once. -/
theorem C8_completed_count_counterexample :
    main_debug_loop [fun st => (st, none)] initState 0 = Except.ok (initState, 0)
    ∧ ¬ loop_completed (main_debug_loop [fun st => (st, none)] initState 0) = 1 :=
  ⟨rfl, by decide⟩

/-- C8 (amended): in the default parallel mode, each account task, whether
it completes successfully or raises, increments completed_count exactly
once, so completed_count equals the number of processed accounts, is
monotonically non-decreasing along the run, and never exceeds the total
number of accounts; in debug/sequential mode completed_count is never
incremented and remains 0. -/
theorem C8_completed_count
    (tasks pre suf : List (GcpState → GcpState × Option String))
    (st st2 : GcpState) (h : tasks = pre ++ suf) :
    (main_parallel_loop tasks st 0).2 = tasks.length
    ∧ (main_parallel_loop pre st2 0).2 ≤ tasks.length
    ∧ loop_completed (main_debug_loop tasks st 0) = 0 := by
  refine ⟨?_, ?_, main_debug_loop_count tasks st 0⟩
  · simpa using main_parallel_loop_count tasks st 0
  · rw [main_parallel_loop_count, h]
    simp

theorem C8_completed_count_witness :
    ([fun st => (st, none), fun st => (st, some "boom")] :
        List (GcpState → GcpState × Option String))
      = [fun st => (st, none)] ++ [fun st => (st, some "boom")]
    ∧ ((main_parallel_loop
          ([fun st => (st, none), fun st => (st, some "boom")] :
            List (GcpState → GcpState × Option String)) initState 0).2
        = ([fun st => (st, none), fun st => (st, some "boom")] :
            List (GcpState → GcpState × Option String)).length
       ∧ (main_parallel_loop
            ([fun st => (st, none)] : List (GcpState → GcpState × Option String))
            initState 0).2
          ≤ ([fun st => (st, none), fun st => (st, some "boom")] :
              List (GcpState → GcpState × Option String)).length
       ∧ loop_completed
          (main_debug_loop
            ([fun st => (st, none), fun st => (st, some "boom")] :
              List (GcpState → GcpState × Option String)) initState 0) = 0) :=
  ⟨rfl, C8_completed_count _ _ _ _ _ rfl⟩

theorem startup_tags_out (mit mw : Int) (ie ee ip pe : Bool)
    (h1 : mit < 1 ∨ mit > 1000) :
    startup mit mw ie ee ip pe
      = StartupResult.exitWith 1 "ERROR: --max-image-tags out of range: [1 .. 1000]" := by
  simp [startup, validate_args, h1]

theorem startup_workers_out (mit mw : Int) (ie ee ip pe : Bool)
    (h1 : ¬ (mit < 1 ∨ mit > 1000)) (h2 : mw < 1 ∨ mw > 1000) :
    startup mit mw ie ee ip pe
      = StartupResult.exitWith 1 "ERROR: --max-workers out of range: [1 .. 1000]" := by
  simp [startup, validate_args, h1, h2]

theorem startup_file_missing (mit mw : Int) (ie ee ip pe : Bool)
    (h1 : ¬ (mit < 1 ∨ mit > 1000)) (h2 : ¬ (mw < 1 ∨ mw > 1000))
    (h3 : (ie = true ∧ ee = false) ∨ (ip = true ∧ pe = false)) :
    ∃ m, startup mit mw ie ee ip pe = StartupResult.exitWith 0 m := by
  by_cases h4 : ie = true ∧ ee = false
  · exact ⟨"excluded-folders.txt does not exist. Exiting...",
      by simp [startup, validate_args, h1, h2, h4]⟩
  · rcases h3 with h3 | h3
    · exact absurd h3 h4
    · exact ⟨"projects.txt does not exist. Exiting...",
        by simp [startup, validate_args, h1, h2, h3, h4]⟩

/-- C4 counterexample: with in-range tunables, --projects set and
projects.txt missing, the process does exit before dispatch with a
descriptive message, but with exit status 0 — sys.exit() is called with no
argument (line 378) — refuting the claimed non-zero exit status for every
configuration error. -/
theorem C4_config_error_exit_counterexample :
    startup 5 100 false true true false
      = StartupResult.exitWith 0 "projects.txt does not exist. Exiting..." := by
  decide

/-- C4 (amended): for every configuration error — an out-of-range tunable
or a required input file that does not exist — the process exits before
any dispatch begins with a descriptive message; an out-of-range
--max-image-tags or --max-workers exits with status 1 (non-zero), while a
missing projects.txt or excluded-folders.txt exits with status 0, because
sys.exit() is called there with no argument. -/
theorem C4_config_error_exit (mit mw : Int) (ie ee ip pe : Bool)
    (h : mit < 1 ∨ mit > 1000 ∨ mw < 1 ∨ mw > 1000
          ∨ (ie = true ∧ ee = false) ∨ (ip = true ∧ pe = false)) :
    startup mit mw ie ee ip pe ≠ StartupResult.proceed
    ∧ ((mit < 1 ∨ mit > 1000 ∨ mw < 1 ∨ mw > 1000) →
        ∃ m, startup mit mw ie ee ip pe = StartupResult.exitWith 1 m)
    ∧ ((1 ≤ mit ∧ mit ≤ 1000 ∧ 1 ≤ mw ∧ mw ≤ 1000) →
        ∃ m, startup mit mw ie ee ip pe = StartupResult.exitWith 0 m) := by
  by_cases h1 : mit < 1 ∨ mit > 1000
  · have hs := startup_tags_out mit mw ie ee ip pe h1
    refine ⟨by rw [hs]; simp, fun _ => ⟨_, hs⟩, fun hr => ?_⟩
    omega
  · by_cases h2 : mw < 1 ∨ mw > 1000
    · have hs := startup_workers_out mit mw ie ee ip pe h1 h2
      refine ⟨by rw [hs]; simp, fun _ => ⟨_, hs⟩, fun hr => ?_⟩
      omega
    · have h3 : (ie = true ∧ ee = false) ∨ (ip = true ∧ pe = false) := by
        rcases h with h | h | h | h | h | h
        · exact absurd (Or.inl h) h1
        · exact absurd (Or.inr h) h1
        · exact absurd (Or.inl h) h2
        · exact absurd (Or.inr h) h2
        · exact Or.inl h
        · exact Or.inr h
      rcases startup_file_missing mit mw ie ee ip pe h1 h2 h3 with ⟨m, hm⟩
      refine ⟨by rw [hm]; simp, fun hr => ?_, fun _ => ⟨m, hm⟩⟩
      omega

theorem C4_config_error_exit_witness :
    ((0 : Int) < 1 ∨ (0 : Int) > 1000 ∨ (100 : Int) < 1 ∨ (100 : Int) > 1000
      ∨ (false = true ∧ true = false) ∨ (false = true ∧ true = false))
    ∧ (startup 0 100 false true false true ≠ StartupResult.proceed
       ∧ (((0 : Int) < 1 ∨ (0 : Int) > 1000 ∨ (100 : Int) < 1 ∨ (100 : Int) > 1000) →
           ∃ m, startup 0 100 false true false true = StartupResult.exitWith 1 m)
       ∧ ((1 ≤ (0 : Int) ∧ (0 : Int) ≤ 1000 ∧ 1 ≤ (100 : Int) ∧ (100 : Int) ≤ 1000) →
           ∃ m, startup 0 100 false true false true = StartupResult.exitWith 0 m)) :=
  ⟨by decide, C4_config_error_exit 0 100 false true false true (by decide)⟩

/-- C5: the claim fails on the code and the code, not the spec, is at
fault: the two branches of get_gcp_resources are meant to gate the same
probe on the same required service, but the Data Buckets probe is gated on
storage.googleapis.com in the debug branch (line 818) and on
storage-api.googleapis.com in the parallel branch (line 848), so for an
account whose enabled-service set contains exactly one of the two strings
the selected probe sets differ between the modes.  Evaluated at the
failing inputs. -/
theorem C5_bucket_gate_divergence :
    selectProbesDebug (enabledConfig false) ["storage.googleapis.com"] []
      = [ProbeCall.buckets]
    ∧ selectProbesParallel (enabledConfig false) ["storage.googleapis.com"] [] = []
    ∧ selectProbesDebug (enabledConfig false) ["storage-api.googleapis.com"] [] = []
    ∧ selectProbesParallel (enabledConfig false) ["storage-api.googleapis.com"] []
      = [ProbeCall.buckets]
    ∧ selectProbesDebug (enabledConfig false) ["storage.googleapis.com"] []
      ≠ selectProbesParallel (enabledConfig false) ["storage.googleapis.com"] [] := by
  refine ⟨by decide, by decide, by decide, by decide, by decide⟩

/-- C7: after the progress update has run k times out of total_count n with
elapsed wall-clock time e (exact rational arithmetic), the reported
percentage equals 100*k/n, the rate equals k/e when e > 0 and 0 otherwise,
the eta equals (n - k)/rate when rate > 0 and 0 otherwise, and in
particular the eta is 0 whenever k = 0 or e = 0. -/
theorem C7_progress_snapshot_spec (k n : Nat) (e : ℚ) (_hn : 0 < n) :
    (progress_snapshot k n e).2.2 = 100 * (k : ℚ) / (n : ℚ)
    ∧ (progress_snapshot k n e).1 = (if 0 < e then (k : ℚ) / e else 0)
    ∧ (progress_snapshot k n e).2.1
        = (if 0 < (progress_snapshot k n e).1
            then ((n : ℚ) - (k : ℚ)) / (progress_snapshot k n e).1 else 0)
    ∧ ((k = 0 ∨ e = 0) → (progress_snapshot k n e).2.1 = 0) := by
  refine ⟨?_, rfl, rfl, ?_⟩
  · show ((k : ℚ) / (n : ℚ)) * 100 = 100 * (k : ℚ) / (n : ℚ)
    ring
  · rintro (rfl | rfl)
    · simp [progress_snapshot]
    · simp [progress_snapshot]

theorem C7_progress_snapshot_spec_witness :
    0 < 4
    ∧ ((progress_snapshot 1 4 2).2.2 = 100 * ((1 : Nat) : ℚ) / ((4 : Nat) : ℚ)
       ∧ (progress_snapshot 1 4 2).1 = (if (0 : ℚ) < 2 then ((1 : Nat) : ℚ) / 2 else 0)
       ∧ (progress_snapshot 1 4 2).2.1
           = (if 0 < (progress_snapshot 1 4 2).1
               then (((4 : Nat) : ℚ) - ((1 : Nat) : ℚ)) / (progress_snapshot 1 4 2).1
               else 0)
       ∧ (((1 : Nat) = 0 ∨ (2 : ℚ) = 0) → (progress_snapshot 1 4 2).2.1 = 0)) :=
  ⟨by decide, C7_progress_snapshot_spec 1 4 2 (by decide)⟩

theorem foldl_add_eq_sum {α : Type} (f : α → Nat) (l : List α) (a : Nat) :
    l.foldl (fun acc x => acc + f x) a = a + (l.map f).sum := by
  induction l generalizing a with
  | nil => simp
  | cons x xs ih => simp [ih, Nat.add_assoc]

/-- C9: the registry-image probe counts only repositories of format DOCKER;
each image with a tags field contributes min(max_image_tags, number of
tags) to its repository count, each image without tags contributes exactly
1, each repository total is capped at 10000, and the probe result is the
sum of these capped per-repository totals. -/
theorem C9_gcr_image_counting (max_image_tags : Nat)
    (repositories : List GarRepository) :
    get_gcp_gcr_images_count max_image_tags repositories
      = ((repositories.filter (fun repo => repo.format == "DOCKER")).map
          (fun repo =>
            min ((repo.dockerImages.map (fun image =>
                    match image.tags with
                    | some ts => min max_image_tags ts.length
                    | none => 1)).sum)
              10000)).sum := by
  unfold get_gcp_gcr_images_count
  rw [foldl_add_eq_sum]
  simp [repository_images_count, foldl_add_eq_sum, docker_image_count]

theorem count_disk_fold_preserves (disks : List VmDisk) (c : GceCounts) :
    (disks.foldl count_disk c).instances_count = c.instances_count
    ∧ (disks.foldl count_disk c).gke_instances_count = c.gke_instances_count := by
  induction disks generalizing c with
  | nil => exact ⟨rfl, rfl⟩
  | cons d ds ih =>
    have hstep : (d :: ds).foldl count_disk c = ds.foldl count_disk (count_disk c d) := rfl
    have hd : (count_disk c d).instances_count = c.instances_count
        ∧ (count_disk c d).gke_instances_count = c.gke_instances_count := by
      unfold count_disk
      split_ifs <;> exact ⟨rfl, rfl⟩
    rw [hstep]
    exact ⟨(ih (count_disk c d)).1.trans hd.1, (ih (count_disk c d)).2.trans hd.2⟩

theorem count_instance_fold (instances : List VmInstance) (c : GceCounts) :
    (instances.foldl count_instance c).instances_count
        = c.instances_count
          + (instances.filter (fun inst => !databricks_skip inst)).length
    ∧ (instances.foldl count_instance c).gke_instances_count
        = c.gke_instances_count
          + (instances.filter (fun inst =>
              !databricks_skip inst && inst.labels.contains "goog-gke-node")).length := by
  induction instances generalizing c with
  | nil => simp
  | cons inst rest ih =>
    have hstep : (inst :: rest).foldl count_instance c
        = rest.foldl count_instance (count_instance c inst) := rfl
    rw [hstep]
    by_cases hs : databricks_skip inst
    · have hc : count_instance c inst = c := by
        unfold count_instance
        rw [if_pos hs]
      rw [hc]
      rcases ih c with ⟨ih1, ih2⟩
      rw [ih1, ih2]
      simp [List.filter_cons, hs]
    · by_cases hg : inst.labels.contains "goog-gke-node"
      · have hg2 : "goog-gke-node" ∈ inst.labels := by simpa using hg
        have hc : count_instance c inst
            = { c with instances_count := c.instances_count + 1,
                       gke_instances_count := c.gke_instances_count + 1 } := by
          unfold count_instance
          rw [if_neg hs, if_pos hg]
        have hci : (count_instance c inst).instances_count = c.instances_count + 1 := by
          rw [hc]
        have hcg : (count_instance c inst).gke_instances_count
            = c.gke_instances_count + 1 := by
          rw [hc]
        rcases ih (count_instance c inst) with ⟨ih1, ih2⟩
        rw [ih1, ih2, hci, hcg]
        constructor
        · simp [List.filter_cons, hs]
          omega
        · simp [List.filter_cons, hs, hg2]
          omega
      · have hg2 : ¬ "goog-gke-node" ∈ inst.labels := by simpa using hg
        have hc : count_instance c inst
            = inst.disks.foldl count_disk
                { c with instances_count := c.instances_count + 1 } := by
          unfold count_instance
          rw [if_neg hs, if_neg hg]
        rcases count_disk_fold_preserves inst.disks
            { c with instances_count := c.instances_count + 1 } with ⟨p1, p2⟩
        have hci : (count_instance c inst).instances_count = c.instances_count + 1 := by
          rw [hc, p1]
        have hcg : (count_instance c inst).gke_instances_count
            = c.gke_instances_count := by
          rw [hc, p2]
        rcases ih (count_instance c inst) with ⟨ih1, ih2⟩
        rw [ih1, ih2, hci, hcg]
        constructor
        · simp [List.filter_cons, hs]
          omega
        · simp [List.filter_cons, hs, hg2]

theorem get_gce_counts_spec (instances : List VmInstance) :
    (get_gce_counts instances).instances_count
        = (instances.filter (fun inst => !databricks_skip inst)).length
    ∧ (get_gce_counts instances).gke_instances_count
        = (instances.filter (fun inst =>
            !databricks_skip inst && inst.labels.contains "goog-gke-node")).length := by
  have h := count_instance_fold instances ⟨0, 0, 0, 0⟩
  simpa [get_gce_counts] using h

theorem effect_totals_vm (instances : List VmInstance) (project_name : String)
    (verbose_mode : Bool) (st : GcpState) :
    (get_gce_instances_effect instances project_name verbose_mode st).totals
        "Virtual Machines"
      = st.totals "Virtual Machines" + (get_gce_counts instances).instances_count := by
  by_cases hv : verbose_mode = true
  · simp [get_gce_instances_effect, hv, add_total, progress_print]
  · by_cases hA : 0 < (get_gce_counts instances).instances_count
    · by_cases hB : 0 < (get_gce_counts instances).gke_instances_count
      · simp [get_gce_instances_effect, hv, hA, hB, add_total, progress_print]
      · simp [get_gce_instances_effect, hv, hA, hB, add_total, progress_print]
    · have h0 : (get_gce_counts instances).instances_count = 0 := by omega
      by_cases hB : 0 < (get_gce_counts instances).gke_instances_count
      · simp [get_gce_instances_effect, hv, hA, hB, add_total, progress_print, h0]
      · simp [get_gce_instances_effect, hv, hA, hB, h0]

theorem effect_totals_ch (instances : List VmInstance) (project_name : String)
    (verbose_mode : Bool) (st : GcpState) :
    (get_gce_instances_effect instances project_name verbose_mode st).totals
        "Container Hosts"
      = st.totals "Container Hosts" + (get_gce_counts instances).gke_instances_count := by
  by_cases hv : verbose_mode = true
  · simp [get_gce_instances_effect, hv, add_total, progress_print]
  · by_cases hB : 0 < (get_gce_counts instances).gke_instances_count
    · by_cases hA : 0 < (get_gce_counts instances).instances_count
      · simp [get_gce_instances_effect, hv, hA, hB, add_total, progress_print]
      · simp [get_gce_instances_effect, hv, hA, hB, add_total, progress_print]
    · have h0 : (get_gce_counts instances).gke_instances_count = 0 := by omega
      by_cases hA : 0 < (get_gce_counts instances).instances_count
      · simp [get_gce_instances_effect, hv, hA, hB, add_total, progress_print, h0]
      · simp [get_gce_instances_effect, hv, hA, hB, h0]

theorem effect_totals_ks (instances : List VmInstance) (project_name : String)
    (verbose_mode : Bool) (st : GcpState) :
    (get_gce_instances_effect instances project_name verbose_mode st).totals
        "Kubernetes Sensors"
      = st.totals "Kubernetes Sensors" + (get_gce_counts instances).gke_instances_count := by
  by_cases hv : verbose_mode = true
  · simp [get_gce_instances_effect, hv, add_total, progress_print]
  · by_cases hB : 0 < (get_gce_counts instances).gke_instances_count
    · by_cases hA : 0 < (get_gce_counts instances).instances_count
      · simp [get_gce_instances_effect, hv, hA, hB, add_total, progress_print]
      · simp [get_gce_instances_effect, hv, hA, hB, add_total, progress_print]
    · have h0 : (get_gce_counts instances).gke_instances_count = 0 := by omega
      by_cases hA : 0 < (get_gce_counts instances).instances_count
      · simp [get_gce_instances_effect, hv, hA, hB, add_total, progress_print, h0]
      · simp [get_gce_instances_effect, hv, hA, hB, h0]

/-- C10: in the compute-instance probe, an instance carrying the tag
Vendor=Databricks or the label databricks is skipped and contributes to no
total; every non-skipped instance increments the Virtual Machines total,
and every non-skipped instance labeled goog-gke-node additionally
increments both the Container Hosts and Kubernetes Sensors totals (a GKE
node is counted in Virtual Machines and Container Hosts simultaneously). -/
theorem C10_gce_instance_counting (instances : List VmInstance)
    (project_name : String) (verbose_mode : Bool) (st : GcpState) :
    (get_gce_counts instances).instances_count
        = (instances.filter (fun inst => !databricks_skip inst)).length
    ∧ (get_gce_counts instances).gke_instances_count
        = (instances.filter (fun inst =>
            !databricks_skip inst && inst.labels.contains "goog-gke-node")).length
    ∧ (get_gce_instances_effect instances project_name verbose_mode st).totals
          "Virtual Machines"
        = st.totals "Virtual Machines"
          + (instances.filter (fun inst => !databricks_skip inst)).length
    ∧ (get_gce_instances_effect instances project_name verbose_mode st).totals
          "Container Hosts"
        = st.totals "Container Hosts"
          + (instances.filter (fun inst =>
              !databricks_skip inst && inst.labels.contains "goog-gke-node")).length
    ∧ (get_gce_instances_effect instances project_name verbose_mode st).totals
          "Kubernetes Sensors"
        = st.totals "Kubernetes Sensors"
          + (instances.filter (fun inst =>
              !databricks_skip inst && inst.labels.contains "goog-gke-node")).length := by
  rcases get_gce_counts_spec instances with ⟨h1, h2⟩
  refine ⟨h1, h2, ?_, ?_, ?_⟩
  · rw [effect_totals_vm, h1]
  · rw [effect_totals_ch, h2]
  · rw [effect_totals_ks, h2]

end GcpRead
